import Mathlib

/-! Verification of the grading / progress / authorization core of the
`lms-backend` repository (a Node.js LMS REST backend), shallowly embedded
in Lean 4.  Numeric request values are modelled by `JSNum` (JavaScript
numbers together with `undefined` and `NaN`, whose comparison semantics
matter for the grade-range guard); database numerics are `ℚ`, ids and
timestamps are `Nat`, and nullable columns are `Option`.
-/

namespace LMS

/-- User roles, from `utils/constants.js` (`USER_ROLES`). -/
inductive Role where
  | student
  | instructor
  | admin
deriving DecidableEq, Repr

/-- An authenticated principal (`req.user`): id plus role. -/
structure Principal where
  id : Nat
  role : Role
deriving DecidableEq, Repr

/-- Error outcomes thrown by the controllers via `AppError`, keyed by the
HTTP status used: 404 NOT_FOUND, 403 FORBIDDEN, 400 BAD_REQUEST
(validation errors), 409 CONFLICT. -/
inductive AppErr where
  | notFound
  | forbidden
  | badRequest
  | conflict
deriving DecidableEq, Repr

/-- A JavaScript numeric value as it flows through a request body:
either a real number, `NaN`, or `undefined` (a missing body field).
`undef` also stands for the SQL NULL that node-postgres writes when an
`undefined` value is used as a query parameter. -/
inductive JSNum where
  | undef
  | nan
  | num (q : ℚ)
deriving DecidableEq, Repr

/-- JavaScript `<` on numbers: any comparison involving `undefined`
(coerced to `NaN`) or `NaN` is `false`. -/
def jsLt : JSNum → JSNum → Bool
  | .num a, .num b => decide (a < b)
  | _, _ => false

/-- JavaScript `>` on numbers: any comparison involving `undefined`
(coerced to `NaN`) or `NaN` is `false`. -/
def jsGt : JSNum → JSNum → Bool
  | .num a, .num b => decide (a > b)
  | _, _ => false

/-- JavaScript `*` on numbers: `undefined` or `NaN` operands give `NaN`. -/
def jsMul : JSNum → JSNum → JSNum
  | .num a, .num b => .num (a * b)
  | _, _ => .nan

/-- Whether a `JSNum` is an actual number (a value that would be stored
as a numeric grade, as opposed to NULL or NaN). -/
def JSNum.isNumeric : JSNum → Bool
  | .num _ => true
  | _ => false

/-- Whether a `JSNum` is the non-value `undef` (JavaScript `undefined`
or a SQL NULL read back as `null`); the `grade !== null` checks in the
source test exactly this. -/
def JSNum.isNull : JSNum → Bool
  | .undef => true
  | _ => false

/-- JavaScript falsiness of an optional string request field:
`undefined`/`null` and the empty string are falsy (`!content`). -/
def strFalsy : Option String → Bool
  | none => true
  | some s => s = ""

/-- `isDatePast` from `utils/helpers.js` combined with the guard
`assignment.due_date && isDatePast(assignment.due_date)` used in
`submitAssignmentController` / `updateSubmissionController`:
late iff a due date exists and lies strictly before `now`. -/
def computeIsLate (now : Nat) (due_date : Option Nat) : Bool :=
  match due_date with
  | none => false
  | some d => decide (d < now)

/-- The columns of an `assignments` row the submission paths read. -/
structure AssignmentRow where
  id : Nat
  due_date : Option Nat
  max_points : ℚ
  allow_late_submission : Bool
  late_penalty_percent : Option ℚ
deriving DecidableEq, Repr

/-- The columns of a `submissions` row. `grade` is a `JSNum` because the
grading path can store a non-numeric value (see `gradeSubmissionController`);
a fresh submission has `grade = .undef` (SQL NULL). -/
structure SubmissionRow where
  assignment_id : Nat
  student_id : Nat
  content : Option String
  file_path : Option String
  is_late : Bool
  grade : JSNum
  feedback : Option String
  graded_at : Option Nat
  graded_by : Option Nat
deriving DecidableEq, Repr

/-- `submitAssignmentController` (`quizController.js` second part,
lines 470-529): after loading the assignment, computes `isLate` from the
current time, rejects late submissions when not allowed (400), rejects a
duplicate submission for the same (assignment, student) pair (409,
`existing` is the result of the `SELECT id FROM submissions WHERE
assignment_id = $1 AND student_id = $2` lookup), rejects an empty body
(400), then inserts the row with the computed `is_late`. -/
def submitAssignmentController (now : Nat) (userId : Nat) (a : Option AssignmentRow)
    (existing : Option SubmissionRow) (content file_path : Option String) :
    Except AppErr SubmissionRow :=
  match a with
  | none => .error .notFound
  | some a =>
    let isLate := computeIsLate now a.due_date
    if isLate ∧ ¬a.allow_late_submission then .error .badRequest
    else if existing.isSome then .error .conflict
    else if strFalsy content ∧ strFalsy file_path then .error .badRequest
    else .ok {
      assignment_id := a.id
      student_id := userId
      content := content
      file_path := file_path
      is_late := isLate
      grade := .undef
      feedback := none
      graded_at := none
      graded_by := none }

/-- `updateSubmissionController` (`quizController.js` second part,
lines 794-847): the student's own ungraded submission is re-written;
`is_late` is recomputed from the current time and the assignment's
current due date and stored again.  `found` is the join row of the
submission (restricted to the requesting student) with its assignment. -/
def updateSubmissionController (now : Nat)
    (found : Option (SubmissionRow × AssignmentRow))
    (content file_path : Option String) : Except AppErr SubmissionRow :=
  match found with
  | none => .error .notFound
  | some (s, a) =>
    if ¬s.grade.isNull then .error .badRequest
    else
      let isLate := computeIsLate now a.due_date
      if isLate ∧ ¬a.allow_late_submission then .error .badRequest
      else if strFalsy content ∧ strFalsy file_path then .error .badRequest
      else .ok { s with content := content, file_path := file_path, is_late := isLate }

/-- `gradeSubmissionController` (`quizController.js` second part,
lines 657-722): ownership gate, the range guard
`if (grade < 0 || grade > submission.max_points)` evaluated with
JavaScript comparison semantics, then the late penalty
`finalGrade = grade * (1 - latePenalty / 100)` where
`latePenalty = late_penalty_percent || 0`, and the update stamping
`graded_at`/`graded_by`.  `sub` is the submission join row (with the
course's `instructor_id` and the assignment's `max_points`). -/
def gradeSubmissionController (user : Principal) (now : Nat) (grade : JSNum)
    (feedback : Option String) (sub : Option SubmissionRow)
    (instructor_id : Nat) (max_points : ℚ) (late_penalty_percent : Option ℚ) :
    Except AppErr SubmissionRow :=
  match sub with
  | none => .error .notFound
  | some s =>
    if user.role ≠ .admin ∧ instructor_id ≠ user.id then .error .forbidden
    else if jsLt grade (.num 0) || jsGt grade (.num max_points) then .error .badRequest
    else
      let latePenalty : ℚ := late_penalty_percent.getD 0
      let finalGrade := if s.is_late then jsMul grade (.num (1 - latePenalty / 100)) else grade
      .ok { s with grade := finalGrade, feedback := feedback,
                   graded_at := some now, graded_by := some user.id }

/-- A `quizzes` row as returned by `getQuizzesByLesson`
(`SELECT id, question, answer, options, quiz_type, points`): `options`
is the parsed JSON array for multiple-choice quizzes, NULL otherwise. -/
structure Quiz where
  id : Nat
  question : String
  answer : String
  options : Option (List String)
  quiz_type : String
  points : ℚ
deriving DecidableEq, Repr

/-- `Math.round` as used on the (always non-negative) quiz score:
round half away from zero, i.e. `⌊x + 1/2⌋` for `x ≥ 0`. -/
def jsRound (q : ℚ) : ℤ := ⌊q + 1 / 2⌋

/-- JavaScript `String.prototype.toLowerCase`, modelled characterwise
(faithful on the ASCII data these comparisons see). -/
def jsToLowerCase (s : String) : String := ⟨s.data.map Char.toLower⟩

/-- JavaScript `String.prototype.trim`: strip leading and trailing
whitespace. -/
def jsTrim (s : String) : String :=
  ⟨((s.data.dropWhile Char.isWhitespace).reverse.dropWhile Char.isWhitespace).reverse⟩

/-- The per-type answer comparison inside `submitQuizAnswers`
(`quizModel.js` lines 135-147): case-insensitive equality for
`multiple_choice`/`true_false`, case-insensitive trimmed equality for
`text`, strict equality in the default case. -/
def isCorrectAnswer (quiz_type : String) (userAnswer answer : String) : Bool :=
  if quiz_type = "multiple_choice" ∨ quiz_type = "true_false" then
    jsToLowerCase userAnswer = jsToLowerCase answer
  else if quiz_type = "text" then
    jsTrim (jsToLowerCase userAnswer) = jsTrim (jsToLowerCase answer)
  else
    userAnswer = answer

/-- One entry of the `results` array built by `submitQuizAnswers`. -/
structure QuizResult where
  quizId : Nat
  question : String
  userAnswer : Option String
  correctAnswer : String
  isCorrect : Bool
  points : ℚ
  maxPoints : ℚ
deriving DecidableEq, Repr

/-- One iteration of the grading loop of `submitQuizAnswers`
(`quizModel.js` lines 126-164): an absent (`undefined`/`null`) answer is
simply wrong with 0 points, otherwise the per-type comparison decides
correctness and a correct answer earns the quiz's points. -/
def gradeQuizAnswer (answers : Nat → Option String) (q : Quiz) : QuizResult :=
  match answers q.id with
  | none =>
    { quizId := q.id, question := q.question, userAnswer := none,
      correctAnswer := q.answer, isCorrect := false, points := 0, maxPoints := q.points }
  | some ua =>
    let c := isCorrectAnswer q.quiz_type ua q.answer
    { quizId := q.id, question := q.question, userAnswer := some ua,
      correctAnswer := q.answer, isCorrect := c,
      points := if c then q.points else 0, maxPoints := q.points }

/-- The aggregate result object returned by `submitQuizAnswers`. -/
structure GradingOutcome where
  totalQuestions : Nat
  totalPoints : ℚ
  earnedPoints : ℚ
  score : ℤ
  results : List QuizResult
deriving DecidableEq, Repr

/-- `submitQuizAnswers` (`quizModel.js` lines 108-184) with the loop's
accumulators expressed as sums over the mapped result list:
`totalPoints` accumulates every quiz's points, `earnedPoints` the points
of the correctly answered ones, and
`score = totalPoints > 0 ? Math.round(earnedPoints / totalPoints * 100) : 0`. -/
def submitQuizAnswers (quizzes : List Quiz) (answers : Nat → Option String) :
    GradingOutcome :=
  let results := quizzes.map (gradeQuizAnswer answers)
  let totalPoints := (quizzes.map Quiz.points).sum
  let earnedPoints := (results.map QuizResult.points).sum
  { totalQuestions := quizzes.length
    totalPoints := totalPoints
    earnedPoints := earnedPoints
    score := if 0 < totalPoints then jsRound (earnedPoints / totalPoints * 100) else 0
    results := results }

/-- The validation of a single quiz's submitted answer inside
`validateQuizAnswers` (`quizModel.js` lines 325-354): a missing/empty
answer is an error; `true_false` must be the string true or false;
`multiple_choice` with a non-empty declared option list must select one
of the options (`opt.value || opt` is the option itself for string
options); `text` must be non-blank after trimming. -/
def validateQuizAnswer (answers : Nat → Option String) (q : Quiz) : List String :=
  match answers q.id with
  | none => ["Answer required for question: " ++ q.question.take 50]
  | some ua =>
    if ua = "" then ["Answer required for question: " ++ q.question.take 50]
    else if q.quiz_type = "true_false" then
      if ua = "true" ∨ ua = "false" then []
      else ["Invalid true/false answer for question: " ++ q.question.take 50]
    else if q.quiz_type = "multiple_choice" then
      match q.options with
      | some opts =>
        if opts ≠ [] ∧ ua ∉ opts then
          ["Invalid option selected for question: " ++ q.question.take 50]
        else []
      | none => []
    else if q.quiz_type = "text" then
      if jsTrim ua = "" then ["Text answer required for question: " ++ q.question.take 50]
      else []
    else []

/-- `validateQuizAnswers` (`quizModel.js` lines 322-357): the
concatenation of each quiz's validation errors. -/
def validateQuizAnswers (answers : Nat → Option String) (quizzes : List Quiz) :
    List String :=
  (quizzes.map (validateQuizAnswer answers)).flatten

/-- `submitQuizAnswersController` (`quizController.js` lines 214-254):
only students may submit; the lesson must exist, the lesson must have
quizzes; if `validateQuizAnswers` reports any error the submission is
rejected with a 400 before grading; otherwise `submitQuizAnswers`
grades the answers.  (The request-shape check that `answers` is an
object is handled by the boundary layer; `answers` is already a map.) -/
def submitQuizAnswersController (user : Principal) (lessonFound : Bool)
    (quizzes : List Quiz) (answers : Nat → Option String) :
    Except AppErr GradingOutcome :=
  if user.role ≠ .student then .error .forbidden
  else if ¬lessonFound then .error .notFound
  else if quizzes = [] then .error .notFound
  else if validateQuizAnswers answers quizzes ≠ [] then .error .badRequest
  else .ok (submitQuizAnswers quizzes answers)

/-- A quiz row as selected by `getQuizQuestionsForStudent`
(`quizModel.js` lines 54-64): `SELECT id, question, options, quiz_type,
points` — structurally without the `answer` column. -/
structure StudentQuizRow where
  id : Nat
  question : String
  options : Option (List String)
  quiz_type : String
  points : ℚ
deriving DecidableEq, Repr

/-- `getQuizQuestionsForStudent`: the projection of the lesson's quiz
rows dropping the `answer` column. -/
def getQuizQuestionsForStudent (quizzes : List Quiz) : List StudentQuizRow :=
  quizzes.map fun q =>
    { id := q.id, question := q.question, options := q.options,
      quiz_type := q.quiz_type, points := q.points }

/-- `getQuizzesByLesson` (`quizModel.js` lines 41-51): returns the full
rows, `answer` column included. -/
def getQuizzesByLesson (quizzes : List Quiz) : List Quiz := quizzes

/-- The lesson join row from `getLessonWithCourseInfo`, reduced to the
field the quiz read path consults. -/
structure LessonWithCourse where
  id : Nat
  instructor_id : Nat
deriving DecidableEq, Repr

/-- The two shapes of quiz list a `getQuizzesByLessonController`
response can carry. -/
inductive QuizzesResponse where
  | studentView (rows : List StudentQuizRow)
  | fullView (rows : List Quiz)
deriving DecidableEq, Repr

/-- The stored correct answers carried by a quiz-list response: the
`fullView` rows each carry the `answer` column, the `studentView` rows
carry none. -/
def answersReturned : QuizzesResponse → List String
  | .studentView _ => []
  | .fullView rows => rows.map Quiz.answer

/-- `getQuizzesByLessonController` (`quizController.js` lines 98-130):
when `forStudent === 'true'` and the caller is a student, the
answer-free projection is returned; otherwise the full rows are
returned, with a 403 only for an instructor who does not own the
course. -/
def getQuizzesByLessonController (user : Principal) (forStudent : Bool)
    (lesson : Option LessonWithCourse) (quizzes : List Quiz) :
    Except AppErr QuizzesResponse :=
  match lesson with
  | none => .error .notFound
  | some lc =>
    if forStudent ∧ user.role = .student then
      .ok (.studentView (getQuizQuestionsForStudent quizzes))
    else if user.role = .instructor ∧ lc.instructor_id ≠ user.id then
      .error .forbidden
    else
      .ok (.fullView (getQuizzesByLesson quizzes))

/-- An `enrollments` row. -/
structure EnrollmentRow where
  user_id : Nat
  course_id : Nat
  progress : ℚ
  completed : Bool
  completed_at : Option Nat
deriving DecidableEq, Repr

/-- `updateEnrollmentProgress` (enrollment model, `unnamed/part_006`
lines 143-156): `completed = progress >= 100`; `completed_at` is set to
`CURRENT_TIMESTAMP` when completed and to `NULL` otherwise, on every
write. -/
def updateEnrollmentProgress (now : Nat) (e : EnrollmentRow) (progress : ℚ) :
    EnrollmentRow :=
  let completed := decide (progress ≥ 100)
  { e with progress := progress, completed := completed,
           completed_at := if completed then some now else none }

/-- `updateProgress` (`lessonController.js` lines 549-572): range-check
the requested progress, require a pre-existing enrollment, then write
through `updateEnrollmentProgress`. -/
def updateProgress (now : Nat) (progress : ℚ) (enrollment : Option EnrollmentRow) :
    Except AppErr EnrollmentRow :=
  if progress < 0 ∨ progress > 100 then .error .badRequest
  else
    match enrollment with
    | none => .error .notFound
    | some e => .ok (updateEnrollmentProgress now e progress)

/-- The `courses` columns the category deletion check reads. -/
structure CourseRow where
  id : Nat
  category_id : Option Nat
  is_deleted : Bool
deriving DecidableEq, Repr

/-- The model-level error thrown by `deleteCategory` (an `Error` whose
message contains the text associated courses). -/
inductive CategoryErr where
  | associatedCourses
deriving DecidableEq, Repr

/-- `deleteCategory` (category model, `unnamed/part_008` lines 65-85):
counts non-deleted courses referencing the category; a positive count
throws; otherwise the category row is deleted and returned
(`null` when no such row existed). -/
def deleteCategory (courses : List CourseRow) (categories : List Nat) (id : Nat) :
    Except CategoryErr (Option Nat) :=
  let courseCount :=
    (courses.filter fun c => c.category_id = some id ∧ c.is_deleted = false).length
  if 0 < courseCount then .error .associatedCourses
  else .ok (if id ∈ categories then some id else none)

/-- `deleteCategoryController` (`unnamed/part_001` lines 537-556): a
`deleteCategory` error mentioning associated courses becomes a 409
CONFLICT; a `null` deletion result becomes a 404. -/
def deleteCategoryController (courses : List CourseRow) (categories : List Nat)
    (id : Nat) : Except AppErr Unit :=
  match deleteCategory courses categories id with
  | .error .associatedCourses => .error .conflict
  | .ok none => .error .notFound
  | .ok (some _) => .ok ()

/-- The ownership check repeated across the controllers
(`if (user.role !== USER_ROLES.ADMIN && x.instructor_id !== user.id)
throw 403`): access is allowed iff the caller is an admin or is the
course's instructor. -/
def ownerOrAdminAllows (user : Principal) (instructor_id : Nat) : Bool :=
  ¬(user.role ≠ Role.admin ∧ instructor_id ≠ user.id)

/-- The module join row from `getModuleWithCourse`. -/
structure ModuleWithCourse where
  id : Nat
  course_id : Nat
  instructor_id : Nat
deriving DecidableEq, Repr

/-- The ownership gate of `updateModuleController` (`unnamed/part_001`
lines 1303-1317): module must exist, then the caller must be admin or
the owning course's instructor; `.ok ()` means the update proceeds. -/
def updateModuleController (user : Principal) (m : Option ModuleWithCourse) :
    Except AppErr Unit :=
  match m with
  | none => .error .notFound
  | some mc =>
    if user.role ≠ .admin ∧ mc.instructor_id ≠ user.id then .error .forbidden
    else .ok ()

/-- The quiz join row (with the owning course's instructor) returned by
`getQuizById`. -/
structure QuizWithCourse where
  id : Nat
  instructor_id : Nat
deriving DecidableEq, Repr

/-- The ownership gate of `updateQuizController` (`quizController.js`
lines 133-153): quiz must exist, then the caller must be admin or the
owning course's instructor. -/
def updateQuizController (user : Principal) (quiz : Option QuizWithCourse) :
    Except AppErr Unit :=
  match quiz with
  | none => .error .notFound
  | some q =>
    if user.role ≠ .admin ∧ q.instructor_id ≠ user.id then .error .forbidden
    else .ok ()

/-! Helper lemmas. -/

lemma gradeSubmissionController_ok
    (user : Principal) (now : Nat) (fb : Option String) (s : SubmissionRow)
    (iid : Nat) (maxp p raw : ℚ)
    (hauth : ¬(user.role ≠ Role.admin ∧ iid ≠ user.id))
    (h0 : 0 ≤ raw) (h1 : raw ≤ maxp) :
    gradeSubmissionController user now (.num raw) fb (some s) iid maxp (some p) =
      .ok { s with grade := .num (if s.is_late then raw * (1 - p / 100) else raw),
                   feedback := fb, graded_at := some now, graded_by := some user.id } := by
  have hlt : jsLt (.num raw) (.num 0) = false := by
    simp only [jsLt, decide_eq_false_iff_not, not_lt]
    exact h0
  have hgt : jsGt (.num raw) (.num maxp) = false := by
    simp only [jsGt, gt_iff_lt, decide_eq_false_iff_not, not_lt]
    exact h1
  simp only [gradeSubmissionController, if_neg hauth, hlt, hgt, Bool.or_self,
    Bool.false_eq_true, if_false, Option.getD_some]
  cases hsl : s.is_late <;> simp [jsMul, hsl]

lemma gradeQuizAnswer_points_eq (answers : Nat → Option String) (q : Quiz) :
    (gradeQuizAnswer answers q).points =
      if (gradeQuizAnswer answers q).isCorrect then q.points else 0 := by
  unfold gradeQuizAnswer
  cases h : answers q.id <;> simp

lemma gradeQuizAnswer_points_of_correct (answers : Nat → Option String) (q : Quiz)
    (ua : String) (h1 : answers q.id = some ua)
    (h2 : isCorrectAnswer q.quiz_type ua q.answer = true) :
    (gradeQuizAnswer answers q).points = q.points := by
  simp [gradeQuizAnswer, h1, h2]

lemma sum_points_filter (answers : Nat → Option String) (quizzes : List Quiz) :
    (quizzes.map fun q => (gradeQuizAnswer answers q).points).sum =
      ((quizzes.filter fun q => (gradeQuizAnswer answers q).isCorrect).map Quiz.points).sum := by
  induction quizzes with
  | nil => rfl
  | cons q l ih =>
    rw [List.map_cons, List.sum_cons, List.filter_cons, gradeQuizAnswer_points_eq answers q]
    cases hc : (gradeQuizAnswer answers q).isCorrect <;> simp [ih]

lemma sum_pos_of_one_le (l : List ℚ) (h : ∀ x ∈ l, 1 ≤ x) (hne : l ≠ []) :
    0 < l.sum := by
  cases l with
  | nil => exact absurd rfl hne
  | cons x l =>
    rw [List.sum_cons]
    have hx : (1 : ℚ) ≤ x := h x (List.mem_cons_self x l)
    have hl : 0 ≤ l.sum := List.sum_nonneg fun y hy => le_trans zero_le_one (h y (List.mem_cons_of_mem x hy))
    linarith

/-! Claim theorems. -/

/-- C1: for an authorized grader and an in-range rawGrade, the stored
final grade equals rawGrade when the submission is not late and
rawGrade * (1 - latePenaltyPercent / 100) when it is late, and the
penalty is applied exactly once per grading: re-grading the already
graded submission computes the new final grade from the new rawGrade
alone, never from the previously stored (penalized) value. -/
theorem applyGrade_late_penalty_once
    (user user2 : Principal) (now now2 : Nat) (fb fb2 : Option String)
    (s : SubmissionRow) (iid : Nat) (maxp p raw raw2 : ℚ)
    (hauth : ¬(user.role ≠ Role.admin ∧ iid ≠ user.id))
    (hauth2 : ¬(user2.role ≠ Role.admin ∧ iid ≠ user2.id))
    (h0 : 0 ≤ raw) (h1 : raw ≤ maxp) (h02 : 0 ≤ raw2) (h12 : raw2 ≤ maxp) :
    ∃ s1 s2,
      gradeSubmissionController user now (.num raw) fb (some s) iid maxp (some p) = .ok s1 ∧
      s1.grade = .num (if s.is_late then raw * (1 - p / 100) else raw) ∧
      gradeSubmissionController user2 now2 (.num raw2) fb2 (some s1) iid maxp (some p) = .ok s2 ∧
      s2.grade = .num (if s.is_late then raw2 * (1 - p / 100) else raw2) := by
  refine ⟨_, _, gradeSubmissionController_ok user now fb s iid maxp p raw hauth h0 h1, rfl,
    gradeSubmissionController_ok user2 now2 fb2 _ iid maxp p raw2 hauth2 h02 h12, rfl⟩

/-- Witness for C1: the spec's own instances — isLate=true,
latePenaltyPercent=10, rawGrade=80 yields 72 (and a re-grade with
rawGrade=50 yields 45, not a doubly-penalized value); isLate=false with
rawGrade=80 yields 80. -/
theorem applyGrade_late_penalty_once_witness :
    (∃ s1 s2,
      gradeSubmissionController ⟨1, Role.admin⟩ 5 (.num 80) none
          (some { assignment_id := 1, student_id := 2, content := some "hw",
                  file_path := none, is_late := true, grade := .undef, feedback := none,
                  graded_at := none, graded_by := none }) 1 100 (some 10) = .ok s1 ∧
      s1.grade = .num 72 ∧
      gradeSubmissionController ⟨1, Role.admin⟩ 6 (.num 50) none (some s1) 1 100 (some 10) = .ok s2 ∧
      s2.grade = .num 45) ∧
    (∃ s1 s2,
      gradeSubmissionController ⟨1, Role.admin⟩ 5 (.num 80) none
          (some { assignment_id := 1, student_id := 2, content := some "hw",
                  file_path := none, is_late := false, grade := .undef, feedback := none,
                  graded_at := none, graded_by := none }) 1 100 (some 10) = .ok s1 ∧
      s1.grade = .num 80 ∧
      gradeSubmissionController ⟨1, Role.admin⟩ 6 (.num 50) none (some s1) 1 100 (some 10) = .ok s2 ∧
      s2.grade = .num 50) := by
  constructor
  · obtain ⟨s1, s2, e1, e2, e3, e4⟩ :=
      applyGrade_late_penalty_once ⟨1, Role.admin⟩ ⟨1, Role.admin⟩ 5 6 none none
        { assignment_id := 1, student_id := 2, content := some "hw",
          file_path := none, is_late := true, grade := .undef, feedback := none,
          graded_at := none, graded_by := none } 1 100 10 80 50
        (by decide) (by decide) (by norm_num) (by norm_num) (by norm_num) (by norm_num)
    refine ⟨s1, s2, e1, ?_, e3, ?_⟩
    · rw [e2]; norm_num
    · rw [e4]; norm_num
  · obtain ⟨s1, s2, e1, e2, e3, e4⟩ :=
      applyGrade_late_penalty_once ⟨1, Role.admin⟩ ⟨1, Role.admin⟩ 5 6 none none
        { assignment_id := 1, student_id := 2, content := some "hw",
          file_path := none, is_late := false, grade := .undef, feedback := none,
          graded_at := none, graded_by := none } 1 100 10 80 50
        (by decide) (by decide) (by norm_num) (by norm_num) (by norm_num) (by norm_num)
    refine ⟨s1, s2, e1, ?_, e3, ?_⟩
    · rw [e2]; norm_num
    · rw [e4]; norm_num

/-- C10: with the grade field absent from the request body
(JavaScript `undefined`), both comparisons of the range guard
`grade < 0 || grade > max_points` are false, so the out-of-range branch
is not taken and grading proceeds, stamping `graded_at` and `graded_by`
while storing a non-numeric (empty) grade value. -/
theorem undefined_grade_guard_passes
    (user : Principal) (now : Nat) (fb : Option String) (s : SubmissionRow)
    (iid : Nat) (maxp : ℚ) (lpp : Option ℚ)
    (hauth : ¬(user.role ≠ Role.admin ∧ iid ≠ user.id)) :
    (jsLt JSNum.undef (JSNum.num 0) || jsGt JSNum.undef (JSNum.num maxp)) = false ∧
    ∃ s1, gradeSubmissionController user now JSNum.undef fb (some s) iid maxp lpp = .ok s1 ∧
      s1.graded_at = some now ∧ s1.graded_by = some user.id ∧ s1.grade.isNumeric = false := by
  have h1 : jsLt JSNum.undef (JSNum.num 0) = false := rfl
  have h2 : jsGt JSNum.undef (JSNum.num maxp) = false := rfl
  refine ⟨by rw [h1, h2]; rfl, ?_⟩
  simp only [gradeSubmissionController, if_neg hauth, h1, h2, Bool.or_self,
    Bool.false_eq_true, if_false]
  refine ⟨_, rfl, rfl, rfl, ?_⟩
  cases hsl : s.is_late <;> simp [jsMul, hsl, JSNum.isNumeric]

/-- Witness for C10: a concrete admin grading request with no grade in
the body passes the range guard and stamps the grading metadata. -/
theorem undefined_grade_guard_passes_witness :
    (jsLt JSNum.undef (JSNum.num 0) || jsGt JSNum.undef (JSNum.num 100)) = false ∧
    ∃ s1, gradeSubmissionController ⟨1, Role.admin⟩ 9 JSNum.undef none
        (some { assignment_id := 1, student_id := 2, content := some "hw",
                file_path := none, is_late := true, grade := .undef, feedback := none,
                graded_at := none, graded_by := none }) 1 100 (some 20) = .ok s1 ∧
      s1.graded_at = some 9 ∧ s1.graded_by = some 1 ∧ s1.grade.isNumeric = false :=
  undefined_grade_guard_passes ⟨1, Role.admin⟩ 9 none
    { assignment_id := 1, student_id := 2, content := some "hw",
      file_path := none, is_late := true, grade := .undef, feedback := none,
      graded_at := none, graded_by := none } 1 100 (some 20) (by decide)

/-- C2: quiz grading returns earnedPoints equal to the sum of the
points of the correctly-answered quizzes, totalPoints equal to the sum
of the points of all quizzes of the lesson, and
score = round(earnedPoints / totalPoints * 100) with score 0 when
totalPoints is 0; a fully-correct answer set (with the lesson's
positive total points) always scores 100. -/
theorem submitQuizAnswers_scoring_spec (quizzes : List Quiz) (answers : Nat → Option String) :
    (submitQuizAnswers quizzes answers).earnedPoints =
      ((quizzes.filter fun q => (gradeQuizAnswer answers q).isCorrect).map Quiz.points).sum ∧
    (submitQuizAnswers quizzes answers).totalPoints = (quizzes.map Quiz.points).sum ∧
    ((submitQuizAnswers quizzes answers).totalPoints = 0 →
      (submitQuizAnswers quizzes answers).score = 0) ∧
    (0 < (submitQuizAnswers quizzes answers).totalPoints →
      (submitQuizAnswers quizzes answers).score =
        jsRound ((submitQuizAnswers quizzes answers).earnedPoints /
          (submitQuizAnswers quizzes answers).totalPoints * 100)) ∧
    ((∀ q ∈ quizzes, ∃ ua, answers q.id = some ua ∧
        isCorrectAnswer q.quiz_type ua q.answer = true) →
      0 < (quizzes.map Quiz.points).sum →
      (submitQuizAnswers quizzes answers).score = 100) := by
  refine ⟨?_, rfl, ?_, ?_, ?_⟩
  · have he : (submitQuizAnswers quizzes answers).earnedPoints =
        (quizzes.map fun q => (gradeQuizAnswer answers q).points).sum := by
      simp [submitQuizAnswers, List.map_map, Function.comp_def]
    rw [he, sum_points_filter]
  · intro h
    simp only [submitQuizAnswers] at h ⊢
    rw [h]
    norm_num
  · intro h
    simp only [submitQuizAnswers] at h ⊢
    rw [if_pos h]
  · intro hall htot
    have hmap : quizzes.map (QuizResult.points ∘ gradeQuizAnswer answers) =
        quizzes.map Quiz.points :=
      List.map_congr_left fun q hq => by
        obtain ⟨ua, h1, h2⟩ := hall q hq
        exact gradeQuizAnswer_points_of_correct answers q ua h1 h2
    simp only [submitQuizAnswers, List.map_map, hmap]
    rw [if_pos htot, div_self (ne_of_gt htot)]
    norm_num [jsRound]

/-- Witness for C2: a two-quiz lesson (a text quiz worth 2 and a
true/false quiz worth 3) answered fully correctly (up to case and
whitespace) scores 100. -/
theorem submitQuizAnswers_scoring_spec_witness :
    0 < (([{ id := 1, question := "What is 2 + 2?", answer := "4", options := none,
             quiz_type := "text", points := 2 },
           { id := 2, question := "Is the sky blue on a clear day?", answer := "true",
             options := none, quiz_type := "true_false", points := 3 }] :
            List Quiz).map Quiz.points).sum ∧
    (submitQuizAnswers
        [{ id := 1, question := "What is 2 + 2?", answer := "4", options := none,
           quiz_type := "text", points := 2 },
         { id := 2, question := "Is the sky blue on a clear day?", answer := "true",
           options := none, quiz_type := "true_false", points := 3 }]
        (fun n => if n = 1 then some " 4 " else if n = 2 then some "TRUE" else none)).score =
      100 := by
  constructor
  · norm_num [List.map_cons, List.map_nil, List.sum_cons, List.sum_nil]
  · refine (submitQuizAnswers_scoring_spec _ _).2.2.2.2 ?_ ?_
    · intro q hq
      fin_cases hq
      · exact ⟨" 4 ", rfl, by decide⟩
      · exact ⟨"TRUE", rfl, by decide⟩
    · norm_num [List.map_cons, List.map_nil, List.sum_cons, List.sum_nil]

/-- C3: for the ownership-gated actions, an admin principal is always
allowed regardless of ownership, and an instructor principal is allowed
iff their id equals the owning course's instructor id — a non-owning
instructor is denied with a 403 (owning other courses is irrelevant:
the decision depends only on the target's instructor id). -/
theorem ownership_gate_admin_or_owner
    (u : Principal) (mc : ModuleWithCourse) (qc : QuizWithCourse) :
    (u.role = Role.admin →
      updateModuleController u (some mc) = .ok () ∧
      updateQuizController u (some qc) = .ok ()) ∧
    (u.role = Role.instructor →
      (updateModuleController u (some mc) = .ok () ↔ u.id = mc.instructor_id) ∧
      (u.id ≠ mc.instructor_id → updateModuleController u (some mc) = .error .forbidden) ∧
      (updateQuizController u (some qc) = .ok () ↔ u.id = qc.instructor_id) ∧
      (u.id ≠ qc.instructor_id → updateQuizController u (some qc) = .error .forbidden)) ∧
    (ownerOrAdminAllows u mc.instructor_id = true ↔
      (u.role = Role.admin ∨ u.id = mc.instructor_id)) := by
  refine ⟨?_, ?_, ?_⟩
  · intro h
    constructor <;> simp [updateModuleController, updateQuizController, h]
  · intro h
    refine ⟨?_, ?_, ?_, ?_⟩
    · by_cases hid : mc.instructor_id = u.id
      · simp [updateModuleController, h, hid]
      · simp only [updateModuleController]
        simp [h, hid]
        exact fun he => hid he.symm
    · intro hid
      have hid' : ¬mc.instructor_id = u.id := fun he => hid he.symm
      simp [updateModuleController, h, hid']
    · by_cases hid : qc.instructor_id = u.id
      · simp [updateQuizController, h, hid]
      · simp only [updateQuizController]
        simp [h, hid]
        exact fun he => hid he.symm
    · intro hid
      have hid' : ¬qc.instructor_id = u.id := fun he => hid he.symm
      simp [updateQuizController, h, hid']
  · simp only [ownerOrAdminAllows, decide_eq_true_eq, not_and_or, not_not, ne_eq]
    constructor
    · rintro (h | h)
      · exact Or.inl h
      · exact Or.inr h.symm
    · rintro (h | h)
      · exact Or.inl h
      · exact Or.inr h.symm

/-- Witness for C3: an admin updates a module of a course owned by
instructor 2; instructor 3 is denied on that course; instructor 2
(the owner) updates their own course's quiz. -/
theorem ownership_gate_admin_or_owner_witness :
    updateModuleController ⟨1, Role.admin⟩ (some ⟨10, 20, 2⟩) = .ok () ∧
    updateModuleController ⟨3, Role.instructor⟩ (some ⟨10, 20, 2⟩) = .error .forbidden ∧
    updateQuizController ⟨2, Role.instructor⟩ (some ⟨11, 2⟩) = .ok () :=
  ⟨((ownership_gate_admin_or_owner ⟨1, Role.admin⟩ ⟨10, 20, 2⟩ ⟨11, 2⟩).1 rfl).1,
   ((ownership_gate_admin_or_owner ⟨3, Role.instructor⟩ ⟨10, 20, 2⟩ ⟨11, 2⟩).2.1 rfl).2.1
     (by decide),
   ((ownership_gate_admin_or_owner ⟨2, Role.instructor⟩ ⟨10, 20, 2⟩ ⟨11, 2⟩).2.1 rfl).2.2.1.mpr
     rfl⟩

lemma updateProgress_ok (now : Nat) (p : ℚ) (e : EnrollmentRow)
    (h0 : 0 ≤ p) (h1 : p ≤ 100) :
    updateProgress now p (some e) = .ok (updateEnrollmentProgress now e p) := by
  have hg : ¬(p < 0 ∨ p > 100) := by push_neg; exact ⟨h0, h1⟩
  simp [updateProgress, hg]

/-- C5: writing an in-range progress to a pre-existing enrollment
stores `completed = (newProgress >= 100)`; writing 100 stores
`completed = true` and stamps `completed_at`, and a subsequent write
below 100 stores `completed = false` and clears `completed_at` to
null. -/
theorem setProgress_completion_spec (now now2 : Nat) (e : EnrollmentRow) (p p2 : ℚ)
    (h0 : 0 ≤ p) (h1 : p ≤ 100) (h02 : 0 ≤ p2) (h2 : p2 < 100) :
    ∃ eg e1 e2,
      updateProgress now p (some e) = .ok eg ∧ eg.completed = decide (p ≥ 100) ∧
      updateProgress now 100 (some e) = .ok e1 ∧ e1.completed = true ∧
        e1.completed_at = some now ∧
      updateProgress now2 p2 (some e1) = .ok e2 ∧ e2.completed = false ∧
        e2.completed_at = none := by
  have hc100 : decide ((100 : ℚ) ≥ 100) = true := by
    rw [decide_eq_true_eq]
  have hc2 : decide (p2 ≥ 100) = false := decide_eq_false (not_le.mpr h2)
  refine ⟨updateEnrollmentProgress now e p, updateEnrollmentProgress now e 100,
    updateEnrollmentProgress now2 (updateEnrollmentProgress now e 100) p2,
    updateProgress_ok now p e h0 h1, rfl,
    updateProgress_ok now 100 e (by norm_num) (by norm_num), ?_, ?_,
    updateProgress_ok now2 p2 _ h02 (le_of_lt h2), ?_, ?_⟩
  · simp [updateEnrollmentProgress, hc100]
  · simp [updateEnrollmentProgress, hc100]
  · simp [updateEnrollmentProgress, hc2]
  · simp [updateEnrollmentProgress, hc2]

/-- Witness for C5: progress 30 leaves the enrollment incomplete;
progress 100 completes it and stamps `completed_at = 7`; a subsequent
write of 50 un-completes it and clears `completed_at`. -/
theorem setProgress_completion_spec_witness :
    ∃ eg e1 e2,
      updateProgress 7 30 (some ⟨1, 2, 0, false, none⟩) = .ok eg ∧ eg.completed = false ∧
      updateProgress 7 100 (some ⟨1, 2, 0, false, none⟩) = .ok e1 ∧ e1.completed = true ∧
        e1.completed_at = some 7 ∧
      updateProgress 8 50 (some e1) = .ok e2 ∧ e2.completed = false ∧
        e2.completed_at = none := by
  obtain ⟨eg, e1, e2, w1, w2, w3, w4, w5, w6, w7, w8⟩ :=
    setProgress_completion_spec 7 8 ⟨1, 2, 0, false, none⟩ 30 50
      (by norm_num) (by norm_num) (by norm_num) (by norm_num)
  refine ⟨eg, e1, e2, w1, ?_, w3, w4, w5, w6, w7, w8⟩
  rw [w2, decide_eq_false_iff_not]
  norm_num

/-- C4: evaluation of the code at a failing input.  A principal with
role student requesting the lesson's quizzes without `forStudent=true`
falls through to the full-data branch (whose 403 only fires for
instructors), so the response returned to the student carries the
stored correct answer — here the stored answer Paris is in the returned
data, contradicting the claim that `correctAnswer` is never included in
data returned to a student. -/
theorem student_quiz_read_returns_answer :
    getQuizzesByLessonController ⟨7, Role.student⟩ false (some ⟨3, 2⟩)
        [{ id := 1, question := "Capital of France?", answer := "Paris", options := none,
           quiz_type := "text", points := 1 }] =
      .ok (.fullView [{ id := 1, question := "Capital of France?", answer := "Paris",
                        options := none, quiz_type := "text", points := 1 }]) ∧
    "Paris" ∈ answersReturned
      (.fullView [{ id := 1, question := "Capital of France?", answer := "Paris",
                    options := none, quiz_type := "text", points := 1 }]) := by
  exact ⟨rfl, by simp [answersReturned]⟩

/-- C6 counterexample: `isLate` is not frozen at creation time.  A
submission created before the due date (time 5, due 10, late
submissions allowed) stores `is_late = false`; the student then updates
the still-ungraded submission at time 20 and the controller recomputes
and stores `is_late = true` — a later operation altered the stored
value, contradicting the claim. -/
theorem isLate_frozen_counterexample :
    ∃ s s2,
      submitAssignmentController 5 42
          (some { id := 1, due_date := some 10, max_points := 100,
                  allow_late_submission := true, late_penalty_percent := none })
          none (some "draft") none = .ok s ∧
      s.is_late = false ∧
      updateSubmissionController 20
          (some (s, { id := 1, due_date := some 10, max_points := 100,
                      allow_late_submission := true, late_penalty_percent := none }))
          (some "final") none = .ok s2 ∧
      s2.is_late = true := by
  refine ⟨_, _, rfl, rfl, rfl, rfl⟩

/-- C6 (amended): `isLate` is computed at submission-creation time as
(dueDate ≠ null AND now > dueDate) and is not altered by grading; but a
student update of the still-ungraded submission recomputes `isLate`
from the then-current time and the assignment's then-current due date
and overwrites the stored value (so a due-date change can affect
`isLate` through a subsequent update). -/
theorem isLate_creation_and_update_spec
    (now now2 uid : Nat) (a a2 : AssignmentRow) (content fp content2 fp2 : Option String)
    (hgate : ¬(computeIsLate now a.due_date ∧ ¬a.allow_late_submission))
    (hcontent : ¬(strFalsy content ∧ strFalsy fp))
    (hgate2 : ¬(computeIsLate now2 a2.due_date ∧ ¬a2.allow_late_submission))
    (hcontent2 : ¬(strFalsy content2 ∧ strFalsy fp2)) :
    (∀ d, computeIsLate now (some d) = decide (d < now)) ∧
    computeIsLate now none = false ∧
    ∃ s, submitAssignmentController now uid (some a) none content fp = .ok s ∧
      s.is_late = computeIsLate now a.due_date ∧
      s.grade.isNull = true ∧
      (∃ s2, updateSubmissionController now2 (some (s, a2)) content2 fp2 = .ok s2 ∧
        s2.is_late = computeIsLate now2 a2.due_date) ∧
      (∀ (user : Principal) (fb : Option String) (iid : Nat) (maxp : ℚ)
          (lpp : Option ℚ) (g : JSNum) (sg : SubmissionRow),
        gradeSubmissionController user now2 g fb (some s) iid maxp lpp = .ok sg →
          sg.is_late = s.is_late) := by
  refine ⟨fun d => rfl, rfl, ?_⟩
  have hcreate : submitAssignmentController now uid (some a) none content fp =
      .ok { assignment_id := a.id, student_id := uid, content := content,
            file_path := fp, is_late := computeIsLate now a.due_date, grade := .undef,
            feedback := none, graded_at := none, graded_by := none } := by
    simp only [submitAssignmentController]
    rw [if_neg hgate]
    simp [hcontent]
  refine ⟨_, hcreate, rfl, rfl, ?_, ?_⟩
  · have hupd : updateSubmissionController now2
        (some ({ assignment_id := a.id, student_id := uid, content := content,
                 file_path := fp, is_late := computeIsLate now a.due_date, grade := .undef,
                 feedback := none, graded_at := none, graded_by := none }, a2))
        content2 fp2 =
        .ok { assignment_id := a.id, student_id := uid, content := content2,
              file_path := fp2, is_late := computeIsLate now2 a2.due_date, grade := .undef,
              feedback := none, graded_at := none, graded_by := none } := by
      simp only [updateSubmissionController, JSNum.isNull]
      rw [if_neg (by simp)]
      rw [if_neg hgate2]
      simp [hcontent2]
    exact ⟨_, hupd, rfl⟩
  · intro user fb iid maxp lpp g sg h
    simp only [gradeSubmissionController] at h
    by_cases h1 : user.role ≠ Role.admin ∧ iid ≠ user.id
    · rw [if_pos h1] at h
      exact absurd h (by simp)
    · rw [if_neg h1] at h
      by_cases h2 : (jsLt g (.num 0) || jsGt g (.num maxp)) = true
      · rw [if_pos h2] at h
        exact absurd h (by simp)
      · rw [if_neg h2] at h
        rw [Except.ok.injEq] at h
        rw [← h]

/-- Witness for C6 (amended): concrete creation at time 5 (due 10),
student update at time 20 after the due date was moved to 30, grading
preserving the stored flag. -/
theorem isLate_creation_and_update_spec_witness :
    (∀ d, computeIsLate 5 (some d) = decide (d < 5)) ∧
    computeIsLate 5 none = false ∧
    ∃ s, submitAssignmentController 5 42
        (some { id := 1, due_date := some 10, max_points := 100,
                allow_late_submission := true, late_penalty_percent := none })
        none (some "draft") none = .ok s ∧
      s.is_late = computeIsLate 5 (some 10) ∧
      s.grade.isNull = true ∧
      (∃ s2, updateSubmissionController 20
          (some (s, { id := 1, due_date := some 30, max_points := 100,
                      allow_late_submission := true, late_penalty_percent := none }))
          (some "final") none = .ok s2 ∧
        s2.is_late = computeIsLate 20 (some 30)) ∧
      (∀ (user : Principal) (fb : Option String) (iid : Nat) (maxp : ℚ)
          (lpp : Option ℚ) (g : JSNum) (sg : SubmissionRow),
        gradeSubmissionController user 20 g fb (some s) iid maxp lpp = .ok sg →
          sg.is_late = s.is_late) :=
  isLate_creation_and_update_spec 5 20 42
    { id := 1, due_date := some 10, max_points := 100,
      allow_late_submission := true, late_penalty_percent := none }
    { id := 1, due_date := some 30, max_points := 100,
      allow_late_submission := true, late_penalty_percent := none }
    (some "draft") none (some "final") none
    (by decide) (by decide) (by decide) (by decide)

/-- C7: for a multiple-choice quiz with a non-empty declared option
list, a submitted answer outside the option set makes the submission
controller fail with the validation error (400) before any grading —
it never returns a graded result. -/
theorem multiple_choice_invalid_option_rejected
    (user : Principal) (lessonFound : Bool) (quizzes : List Quiz)
    (answers : Nat → Option String) (q : Quiz) (opts : List String) (ua : String)
    (hrole : user.role = Role.student) (hl : lessonFound = true)
    (hq : q ∈ quizzes) (htype : q.quiz_type = "multiple_choice")
    (hopts : q.options = some opts) (hne : opts ≠ [])
    (ha : answers q.id = some ua) (hnotin : ua ∉ opts) :
    submitQuizAnswersController user lessonFound quizzes answers = .error .badRequest := by
  have hqne : quizzes ≠ [] := by
    intro hnil
    rw [hnil] at hq
    exact absurd hq (List.not_mem_nil q)
  have hv1 : validateQuizAnswer answers q ≠ [] := by
    unfold validateQuizAnswer
    rw [ha]
    by_cases hemp : ua = ""
    · simp [hemp]
    · simp [hemp, htype, hopts, hne, hnotin]
  have hv : validateQuizAnswers answers quizzes ≠ [] := by
    unfold validateQuizAnswers
    intro hflat
    rw [List.flatten_eq_nil_iff] at hflat
    exact hv1 (hflat _ (List.mem_map_of_mem _ hq))
  simp only [submitQuizAnswersController]
  rw [if_neg (by simp [hrole]), if_neg (by simp [hl]), if_neg hqne, if_pos hv]

/-- Witness for C7: answering D on a multiple-choice quiz whose options
are A, B, C is rejected with a 400 validation error. -/
theorem multiple_choice_invalid_option_rejected_witness :
    submitQuizAnswersController ⟨5, Role.student⟩ true
      [{ id := 1, question := "Pick the first letter of the alphabet.",
         answer := "A", options := some ["A", "B", "C"],
         quiz_type := "multiple_choice", points := 2 }]
      (fun n => if n = 1 then some "D" else none) = .error .badRequest :=
  multiple_choice_invalid_option_rejected ⟨5, Role.student⟩ true
    [{ id := 1, question := "Pick the first letter of the alphabet.",
       answer := "A", options := some ["A", "B", "C"],
       quiz_type := "multiple_choice", points := 2 }]
    (fun n => if n = 1 then some "D" else none)
    { id := 1, question := "Pick the first letter of the alphabet.",
      answer := "A", options := some ["A", "B", "C"],
      quiz_type := "multiple_choice", points := 2 }
    ["A", "B", "C"] "D" rfl rfl (by simp) rfl rfl (by decide) rfl (by decide)

/-- C8 counterexample: a second submission for an (assignment, student)
pair that already has one does not always fail with the 409 conflict:
when the due date (10) has passed (now 20) and late submissions are not
allowed, the deadline guard fires first and the request fails with a
400 instead, even though a (graded) submission already exists. -/
theorem duplicate_submission_counterexample :
    submitAssignmentController 20 7
        (some { id := 1, due_date := some 10, max_points := 100,
                allow_late_submission := false, late_penalty_percent := none })
        (some { assignment_id := 1, student_id := 7, content := some "first",
                file_path := none, is_late := false, grade := .num 95,
                feedback := none, graded_at := some 12, graded_by := some 3 })
        (some "second") none = .error .badRequest ∧
    submitAssignmentController 20 7
        (some { id := 1, due_date := some 10, max_points := 100,
                allow_late_submission := false, late_penalty_percent := none })
        (some { assignment_id := 1, student_id := 7, content := some "first",
                file_path := none, is_late := false, grade := .num 95,
                feedback := none, graded_at := some 12, graded_by := some 3 })
        (some "second") none ≠ .error .conflict := by
  refine ⟨rfl, ?_⟩
  intro h
  have h2 : (Except.error AppErr.badRequest : Except AppErr SubmissionRow) =
      Except.error AppErr.conflict := h
  simp at h2

/-- C8 (amended): provided the request is not rejected first by the
late-deadline guard (a past due date with late submissions disallowed
yields a 400 instead), creating a second submission for an
(assignment, student) pair with an existing submission fails with the
409 conflict, regardless of whether the existing submission has been
graded — the check runs before any insertion. -/
theorem duplicate_submission_conflict
    (now uid : Nat) (a : AssignmentRow) (prior : SubmissionRow)
    (content fp : Option String)
    (hgate : ¬(computeIsLate now a.due_date ∧ ¬a.allow_late_submission)) :
    submitAssignmentController now uid (some a) (some prior) content fp =
      .error .conflict := by
  simp only [submitAssignmentController]
  rw [if_neg hgate]
  simp

/-- Witness for C8 (amended): with the deadline not passed, a second
submission attempt against an already graded prior submission (grade
95) fails with the conflict error. -/
theorem duplicate_submission_conflict_witness :
    submitAssignmentController 5 7
        (some { id := 1, due_date := some 10, max_points := 100,
                allow_late_submission := false, late_penalty_percent := none })
        (some { assignment_id := 1, student_id := 7, content := some "first",
                file_path := none, is_late := false, grade := .num 95,
                feedback := none, graded_at := some 4, graded_by := some 3 })
        (some "second") none = .error .conflict :=
  duplicate_submission_conflict 5 7
    { id := 1, due_date := some 10, max_points := 100,
      allow_late_submission := false, late_penalty_percent := none }
    { assignment_id := 1, student_id := 7, content := some "first",
      file_path := none, is_late := false, grade := .num 95,
      feedback := none, graded_at := some 4, graded_by := some 3 }
    (some "second") none (by decide)

/-- C9: deleting a category fails with the 409 conflict whenever at
least one non-deleted course references it, and succeeds (removing the
existing category) whenever no non-deleted course references it. -/
theorem deleteCategory_reference_check (courses : List CourseRow)
    (categories : List Nat) (id : Nat) :
    (0 < (courses.filter fun c => c.category_id = some id ∧ c.is_deleted = false).length →
      deleteCategoryController courses categories id = .error .conflict) ∧
    ((courses.filter fun c => c.category_id = some id ∧ c.is_deleted = false).length = 0 →
      id ∈ categories → deleteCategoryController courses categories id = .ok ()) := by
  constructor
  · intro h
    have hd : deleteCategory courses categories id = .error .associatedCourses := by
      unfold deleteCategory
      rw [if_pos h]
    unfold deleteCategoryController
    rw [hd]
  · intro h hmem
    have hd : deleteCategory courses categories id = .ok (some id) := by
      unfold deleteCategory
      rw [if_neg (by rw [h]; exact lt_irrefl 0), if_pos hmem]
    unfold deleteCategoryController
    rw [hd]

/-- Witness for C9: category 5 is referenced by one non-deleted course
and cannot be deleted; category 6 has no non-deleted referencing course
and is deleted. -/
theorem deleteCategory_reference_check_witness :
    deleteCategoryController [{ id := 1, category_id := some 5, is_deleted := false }]
        [5, 6] 5 = .error .conflict ∧
    deleteCategoryController [{ id := 1, category_id := some 5, is_deleted := false }]
        [5, 6] 6 = .ok () :=
  ⟨(deleteCategory_reference_check
      [{ id := 1, category_id := some 5, is_deleted := false }] [5, 6] 5).1 (by decide),
   (deleteCategory_reference_check
      [{ id := 1, category_id := some 5, is_deleted := false }] [5, 6] 6).2
      (by decide) (by decide)⟩

end LMS
